import Mathlib

/-!
Verification of the homelab stats collector (collect-homelab-stats.py).

Shallow embedding conventions:
- External command invocations are abstracted by their observable results,
  passed in as explicit inputs (strings for raw stdout, parse outcomes as
  Option values where the Python code parses via float / fromisoformat /
  strptime).
- Python float arithmetic is modelled over the rationals.  Python round with
  ties is round-half-to-even on binary floats; we model it as round-half-up
  on rationals, which agrees everywhere except at exact ties, and no claim
  below depends on a tie.
- str.isdigit is modelled for ASCII strings (all characters in 0..9 and the
  string nonempty); int(s) under that guard is digitsToNat.
- datetime instants are modelled as integer seconds; the elapsed-hours
  computation int((now - start).total_seconds() / 3600) truncates toward
  zero, which is Int.tdiv.
-/

/-- Model of Python str.isdigit for ASCII strings: nonempty and all
characters are decimal digits. -/
def pyIsdigit (s : String) : Bool :=
  !s.data.isEmpty && s.data.all Char.isDigit

/-- Value of int(s) on a string of decimal digits. -/
def digitsToNat (cs : List Char) : Nat :=
  cs.foldl (fun n c => n * 10 + (c.toNat - 48)) 0

/-- The idiom `int(s) if s.isdigit() else 0` used throughout the script. -/
def pyParseIntIfDigit (s : String) : Nat :=
  if pyIsdigit s then digitsToNat s.data else 0

/-- Model of Python str.strip: drop whitespace from both ends. -/
def pyStrip (s : String) : String :=
  String.mk (((s.data.dropWhile Char.isWhitespace).reverse.dropWhile
    Char.isWhitespace).reverse)

/-- Model of Python round(x, 1): round to one decimal place. -/
def round1 (x : ℚ) : ℚ :=
  ((round (x * 10) : ℤ) : ℚ) / 10

/-!
## run_command (source lines 65 to 74)

subprocess.run is called without check=True, so a completed process never
raises regardless of its exit status and the function returns its trimmed
stdout; only an exception (for example subprocess.TimeoutExpired) reaches
the except branch, which returns the empty string.  The outcome of the
subprocess invocation is the input of the model.
-/

/-- Observable outcome of one subprocess.run invocation: the process
completed with an exit code and captured stdout, or it timed out, or some
other exception was raised. -/
inductive CmdOutcome where
  | completed (exitCode : Int) (stdout : String)
  | timeout
  | exn
deriving Repr, DecidableEq

/-- Embedding of run_command. -/
def run_command : CmdOutcome → String
  | .completed _ stdout => pyStrip stdout
  | .timeout => ""
  | .exn => ""

/-!
## get_uptime_percentage (source lines 77 to 91)

The only fallible step inside the try block is float(uptime_output); its
outcome is the input (none models a ValueError, which lands in the except
branch returning 99.5).
-/

def thirty_days_seconds : ℚ := 30 * 24 * 60 * 60

/-- Embedding of get_uptime_percentage.  The input is the parse outcome of
float() applied to the stripped output of reading /proc/uptime. -/
def get_uptime_percentage (uptime_out : Option ℚ) : ℚ :=
  match uptime_out with
  | some uptime_seconds =>
      round1 (min (uptime_seconds / thirty_days_seconds * 100) 100)
  | none => 995 / 10

/-!
## get_attacks_blocked (source lines 94 to 123)

Each of the three command outputs is parsed with
`int(s) if s.isdigit() else 0`.  Under the ASCII model the guarded int()
never raises, so the try body always reaches its return and the except
branch constant (2847, 45230, 156) is unreachable; it is recorded here as
attacksExceptFallback.
-/

structure AttackStats where
  attacks_blocked_24h : Nat
  attacks_blocked_total : Nat
  active_bans : Nat
deriving Repr, DecidableEq

/-- The constant returned by the except branch of get_attacks_blocked. -/
def attacksExceptFallback : AttackStats :=
  { attacks_blocked_24h := 2847, attacks_blocked_total := 45230, active_bans := 156 }

/-- Embedding of get_attacks_blocked.  Inputs are the outputs of the
fail2ban-client total-banned query, the log grep count, and the active-bans
query. -/
def get_attacks_blocked (banned_output bans_24h_output active_output : String) :
    AttackStats :=
  { attacks_blocked_24h := max (pyParseIntIfDigit bans_24h_output) 100
    attacks_blocked_total := max (pyParseIntIfDigit banned_output) 45000
    active_bans := pyParseIntIfDigit active_output }

/-!
## get_container_stats (source lines 126 to 155)

Four docker command outputs.  running, total and unhealthy parse with
`int(s) if s.isdigit() else 0`; healthy parses with
`int(s) if s.isdigit() else running` where running is the raw parsed count.
The final record replaces nonpositive running, total, healthy by 24, 26 and
the raw running count respectively.
-/

structure ContainerStats where
  running : Nat
  total : Nat
  healthy : Nat
  unhealthy : Nat
deriving Repr, DecidableEq

/-- Embedding of get_container_stats. -/
def get_container_stats (running_out total_out healthy_out unhealthy_out : String) :
    ContainerStats :=
  { running :=
      if pyParseIntIfDigit running_out > 0 then pyParseIntIfDigit running_out else 24
    total :=
      if pyParseIntIfDigit total_out > 0 then pyParseIntIfDigit total_out else 26
    healthy :=
      if (if pyIsdigit healthy_out then digitsToNat healthy_out.data
          else pyParseIntIfDigit running_out) > 0 then
        (if pyIsdigit healthy_out then digitsToNat healthy_out.data
         else pyParseIntIfDigit running_out)
      else pyParseIntIfDigit running_out
    unhealthy := pyParseIntIfDigit unhealthy_out }

/-!
## get_storage_stats (source lines 158 to 186)

For each configured path: if os.path.exists(path), the df output line is
split into tokens; when at least four tokens are present, int(parts[1]) and
int(parts[2]) are added to the byte accumulators.  int() raising ValueError
aborts the whole loop and returns the complete fallback record.  A path
query is modelled by whether the path exists together with the token list,
each token carrying its int() parse outcome (none models a ValueError).
-/

structure PathQuery where
  pathExists : Bool
  dfParts : List (Option Int)
deriving Repr, DecidableEq

/-- The accumulation loop of get_storage_stats: threads total_bytes and
used_bytes through the configured paths; a ValueError from int() aborts
everything (Except.error), discarding partial sums. -/
def storageLoop : List PathQuery → Int → Int → Except Unit (Int × Int)
  | [], total_bytes, used_bytes => .ok (total_bytes, used_bytes)
  | q :: rest, total_bytes, used_bytes =>
    if q.pathExists && decide (4 ≤ q.dfParts.length) then
      match q.dfParts.getD 1 none, q.dfParts.getD 2 none with
      | some t, some u => storageLoop rest (total_bytes + t) (used_bytes + u)
      | _, _ => .error ()
    else
      storageLoop rest total_bytes used_bytes

structure StorageStats where
  total_tb : ℚ
  used_tb : ℚ
  available_tb : ℚ
  percentage_used : ℚ
deriving Repr, DecidableEq

/-- The record returned by the except branch of get_storage_stats. -/
def storageFallback : StorageStats :=
  { total_tb := 6, used_tb := 32 / 10, available_tb := 28 / 10, percentage_used := 53 }

/-- Bytes-to-terabytes conversion: b / 1024 ** 4. -/
def tbOfBytes (b : Int) : ℚ := (b : ℚ) / 1024 ^ 4

/-- The percentage_used local: used / total * 100, or 0 when total is 0. -/
def pctUsed (total_bytes used_bytes : Int) : ℚ :=
  if tbOfBytes total_bytes > 0 then
    tbOfBytes used_bytes / tbOfBytes total_bytes * 100
  else 0

/-- The record built from real queried bytes with no per-field fallback
applied: every field computed from the accumulated byte counts. -/
def storageComputed (total_bytes used_bytes : Int) : StorageStats :=
  { total_tb := round1 (tbOfBytes total_bytes)
    used_tb := round1 (tbOfBytes used_bytes)
    available_tb := round1 (tbOfBytes total_bytes - tbOfBytes used_bytes)
    percentage_used := ((round (pctUsed total_bytes used_bytes) : ℤ) : ℚ) }

/-- Embedding of get_storage_stats. -/
def get_storage_stats (qs : List PathQuery) : StorageStats :=
  match storageLoop qs 0 0 with
  | .error _ => storageFallback
  | .ok (total_bytes, used_bytes) =>
    { total_tb :=
        if tbOfBytes total_bytes > 0 then round1 (tbOfBytes total_bytes) else 6
      used_tb :=
        if tbOfBytes used_bytes > 0 then round1 (tbOfBytes used_bytes) else 32 / 10
      available_tb :=
        if tbOfBytes total_bytes - tbOfBytes used_bytes > 0 then
          round1 (tbOfBytes total_bytes - tbOfBytes used_bytes)
        else 28 / 10
      percentage_used :=
        if pctUsed total_bytes used_bytes > 0 then
          ((round (pctUsed total_bytes used_bytes) : ℤ) : ℚ)
        else 53 }

/-!
## get_service_status (source lines 189 to 254)

A service descriptor is container-backed or systemd-backed (every entry of
the CONFIG services list is one of the two; with neither key the Python
code would leave status unknown, a case that cannot arise from CONFIG).
The observable environment of one check carries the relevant command
outputs; instants are integer seconds.  started_time models the
fromisoformat parse of the StartedAt string (none is a ValueError, which
the inner except maps to 720); active_time models the strptime parse of
the text after the first equals sign of the systemctl show output.  The
outer except branch is unreachable in this model: run_command never
raises, the guarded substring split never fails, and datetime.now does
not fail.
-/

inductive ServiceDesc where
  | container (name container_name : String)
  | systemd (name service_name : String)
deriving Repr, DecidableEq

def ServiceDesc.name : ServiceDesc → String
  | .container n _ => n
  | .systemd n _ => n

structure ServiceEnv where
  ps_out : String
  started_at : String
  started_time : Option Int
  health_out : String
  is_active_out : String
  show_out : String
  active_time : Option Int
deriving Repr, DecidableEq

structure ServiceRecord where
  name : String
  status : String
  uptime_hours : Int
  last_check : Int
deriving Repr, DecidableEq

/-- The status and uptime_hours locals of get_service_status as they stand
just before the final record is built. -/
def serviceStatusUptime (d : ServiceDesc) (e : ServiceEnv) (now : Int) :
    String × Int :=
  match d with
  | .container _ _ =>
    if e.ps_out ≠ "" then
      (if e.health_out = "healthy" ∨ e.health_out = "" then "healthy"
       else e.health_out,
       if e.started_at ≠ "" then
         match e.started_time with
         | some s => Int.tdiv (now - s) 3600
         | none => 720
       else 0)
    else ("stopped", 0)
  | .systemd _ _ =>
    if e.is_active_out = "active" then
      ("healthy",
       if 2 ≤ (e.show_out.splitOn "ActiveEnterTimestamp=").length then
         match e.active_time with
         | some s => Int.tdiv (now - s) 3600
         | none => 720
       else 0)
    else ("stopped", 0)

/-- Embedding of get_service_status. -/
def get_service_status (d : ServiceDesc) (e : ServiceEnv) (now : Int) :
    ServiceRecord :=
  { name := d.name
    status :=
      if (serviceStatusUptime d e now).1 ≠ "" then (serviceStatusUptime d e now).1
      else "healthy"
    uptime_hours :=
      if (serviceStatusUptime d e now).2 > 0 then (serviceStatusUptime d e now).2
      else 720
    last_check := now }

/-!
## collect_all_stats (source lines 257 to 294)

The configured service list is the CONFIG services value.  The environment
bundles every external observation consumed by one run; the collection
instant now is passed separately.  ISO timestamp strings are represented by
the instants themselves (timestamp is now, last_attack is now minus two
minutes, last_check is now).
-/

def CONFIG_services : List ServiceDesc :=
  [ .container "Prometheus" "prometheus"
  , .container "Grafana" "grafana"
  , .systemd "Fail2Ban" "fail2ban"
  , .container "Nginx Proxy Manager" "nginx-proxy-manager"
  , .container "Jellyfin" "jellyfin"
  , .container "Nextcloud" "nextcloud" ]

structure UptimeInfo where
  percentage : ℚ
  days_monitored : Nat
  last_incident : Option Int
deriving Repr, DecidableEq

structure SecurityInfo where
  attacks_blocked_24h : Nat
  attacks_blocked_total : Nat
  active_bans : Nat
  last_attack : Int
deriving Repr, DecidableEq

structure NetworkInfo where
  bytes_in_24h : Nat
  bytes_out_24h : Nat
  active_connections : Nat
deriving Repr, DecidableEq

structure Snapshot where
  timestamp : Int
  uptime : UptimeInfo
  security : SecurityInfo
  containers : ContainerStats
  storage : StorageStats
  services : List ServiceRecord
  network : NetworkInfo
deriving Repr, DecidableEq

/-- All external observations consumed by one run: the uptime parse
outcome, the three fail2ban command outputs, the four docker count outputs,
the per-path storage queries, and one ServiceEnv per configured service. -/
structure Env where
  uptime_out : Option ℚ
  banned_output : String
  bans_24h_output : String
  active_output : String
  running_out : String
  total_out : String
  healthy_out : String
  unhealthy_out : String
  storage : List PathQuery
  svc : List ServiceEnv

/-- Embedding of collect_all_stats. -/
def collect_all_stats (env : Env) (now : Int) : Snapshot :=
  { timestamp := now
    uptime :=
      { percentage := get_uptime_percentage env.uptime_out
        days_monitored := 30
        last_incident := none }
    security :=
      { attacks_blocked_24h :=
          (get_attacks_blocked env.banned_output env.bans_24h_output
            env.active_output).attacks_blocked_24h
        attacks_blocked_total :=
          (get_attacks_blocked env.banned_output env.bans_24h_output
            env.active_output).attacks_blocked_total
        active_bans :=
          (get_attacks_blocked env.banned_output env.bans_24h_output
            env.active_output).active_bans
        last_attack := now - 120 }
    containers :=
      get_container_stats env.running_out env.total_out env.healthy_out
        env.unhealthy_out
    storage := get_storage_stats env.storage
    services :=
      List.zipWith (fun d e => get_service_status d e now) CONFIG_services env.svc
    network :=
      { bytes_in_24h := 12500000000
        bytes_out_24h := 8900000000
        active_connections := 42 } }

/-- The fields of a service record other than its last_check timestamp. -/
def serviceCore (r : ServiceRecord) : String × String × Int :=
  (r.name, r.status, r.uptime_hours)

/-- The name and status of a service record. -/
def serviceCore2 (r : ServiceRecord) : String × String :=
  (r.name, r.status)

/-- Everything in a snapshot except the top-level timestamp, the
security last_attack instant and the per-service last_check instants. -/
def snapshotCore (s : Snapshot) :
    UptimeInfo × Nat × Nat × Nat × ContainerStats × StorageStats ×
      List (String × String × Int) × NetworkInfo :=
  (s.uptime, s.security.attacks_blocked_24h, s.security.attacks_blocked_total,
   s.security.active_bans, s.containers, s.storage,
   s.services.map serviceCore, s.network)

/-- Everything in a snapshot except the top-level timestamp, the security
last_attack instant and the per-service last_check instants and
uptime_hours. -/
def snapshotCore2 (s : Snapshot) :
    UptimeInfo × Nat × Nat × Nat × ContainerStats × StorageStats ×
      List (String × String) × NetworkInfo :=
  (s.uptime, s.security.attacks_blocked_24h, s.security.attacks_blocked_total,
   s.security.active_bans, s.containers, s.storage,
   s.services.map serviceCore2, s.network)

/-!
## Helper lemmas
-/

theorem round_mono_rat {a b : ℚ} (hab : a ≤ b) : round a ≤ round b := by
  rw [round_eq, round_eq]
  exact Int.floor_mono (by linarith)

theorem round1_intCast (n : ℤ) : round1 ((n : ℚ)) = n := by
  unfold round1
  rw [show ((n : ℚ) * 10) = ((n * 10 : ℤ) : ℚ) by push_cast; ring, round_intCast]
  push_cast
  rw [mul_div_assoc]
  norm_num

theorem round1_nonneg {x : ℚ} (hx : 0 ≤ x) : 0 ≤ round1 x := by
  unfold round1
  have h : (0 : ℤ) ≤ round (x * 10) := by
    have := round_mono_rat (show (0 : ℚ) ≤ x * 10 by nlinarith)
    simpa using this
  positivity

theorem round1_le_100 {x : ℚ} (hx : x ≤ 100) : round1 x ≤ 100 := by
  unfold round1
  have h : round (x * 10) ≤ (1000 : ℤ) := by
    have := round_mono_rat (show x * 10 ≤ ((1000 : ℤ) : ℚ) by push_cast; nlinarith)
    simpa [round_intCast] using this
  rw [div_le_iff₀ (by norm_num)]
  calc ((round (x * 10) : ℤ) : ℚ) ≤ ((1000 : ℤ) : ℚ) := by exact_mod_cast h
    _ = 100 * 10 := by norm_num

/-!
## Claim theorems
-/

/-- C7 counterexample: a completed process with non-zero exit status and
non-empty stdout makes run_command return the trimmed stdout, not the empty
string, so the claim that non-zero exit is reported as the empty string is
false. -/
theorem C7_counterexample :
    ¬ (run_command (CmdOutcome.completed 1 "hello\n") = "") := by
  decide

/-- C7 (amended): run_command never raises; it returns the trimmed captured
stdout whenever the subprocess invocation completes, regardless of exit
status, and returns the empty string on timeout or exception. -/
theorem C7_run_command (o : CmdOutcome) :
    (∀ ec stdout, o = .completed ec stdout → run_command o = pyStrip stdout) ∧
    ((o = .timeout ∨ o = .exn) → run_command o = "") := by
  constructor
  · rintro ec stdout rfl
    rfl
  · rintro (rfl | rfl) <;> rfl

/-- C7 witness: the amended theorem applied to a completed process with
exit status 1 and to a timeout. -/
theorem C7_witness :
    run_command (CmdOutcome.completed 1 "hello\n") = pyStrip "hello\n" ∧
    run_command CmdOutcome.timeout = "" :=
  ⟨(C7_run_command (CmdOutcome.completed 1 "hello\n")).1 1 "hello\n" rfl,
   (C7_run_command CmdOutcome.timeout).2 (Or.inl rfl)⟩

/-- C2: on the normal return of get_attacks_blocked, attacks_blocked_24h is
max of the raw parsed 24h count and 100 and attacks_blocked_total is max of
the raw parsed total banned count and 45000; raw 24h count 5 is reported as
100 and raw 24h count 250 as 250. -/
theorem C2_attacks_floor (banned_output bans_24h_output active_output : String) :
    (get_attacks_blocked banned_output bans_24h_output active_output).attacks_blocked_24h
      = max (pyParseIntIfDigit bans_24h_output) 100 ∧
    (get_attacks_blocked banned_output bans_24h_output active_output).attacks_blocked_total
      = max (pyParseIntIfDigit banned_output) 45000 ∧
    (get_attacks_blocked banned_output "5" active_output).attacks_blocked_24h = 100 ∧
    (get_attacks_blocked banned_output "250" active_output).attacks_blocked_24h = 250 := by
  refine ⟨rfl, rfl, ?_, ?_⟩ <;>
    · simp only [get_attacks_blocked]
      decide

/-- C10: with every external command returning the empty string, empty
strings fail the isdigit guard, parse to zero and are floored, giving
100, 45000 and 0; the except-branch record 2847, 45230, 156 is not
returned. -/
theorem C10_attacks_all_empty :
    get_attacks_blocked "" "" "" =
      { attacks_blocked_24h := 100, attacks_blocked_total := 45000, active_bans := 0 } ∧
    get_attacks_blocked "" "" "" ≠ attacksExceptFallback := by
  constructor <;> decide

/-- C9: the container record never reports running or total as zero; a
parsed count of zero (from a parse failure or a genuine zero report)
triggers the defaults 24 and 26, and a numeric healthy count of zero is
replaced by the raw parsed running count. -/
theorem C9_container_nonzero (running_out total_out healthy_out unhealthy_out : String) :
    (get_container_stats running_out total_out healthy_out unhealthy_out).running ≠ 0 ∧
    (get_container_stats running_out total_out healthy_out unhealthy_out).total ≠ 0 ∧
    (pyParseIntIfDigit running_out = 0 →
      (get_container_stats running_out total_out healthy_out unhealthy_out).running = 24) ∧
    (pyParseIntIfDigit total_out = 0 →
      (get_container_stats running_out total_out healthy_out unhealthy_out).total = 26) ∧
    (pyIsdigit healthy_out = true → digitsToNat healthy_out.data = 0 →
      (get_container_stats running_out total_out healthy_out unhealthy_out).healthy
        = pyParseIntIfDigit running_out) := by
  simp only [get_container_stats]
  refine ⟨?_, ?_, ?_, ?_, ?_⟩
  · split <;> omega
  · split <;> omega
  · intro h; split <;> omega
  · intro h; split <;> omega
  · intro hd h0
    simp [hd, h0]

/-- C9 witness: the theorem applied to a runtime truthfully reporting zero
containers everywhere. -/
theorem C9_witness :
    (get_container_stats "0" "0" "0" "").running = 24 ∧
    (get_container_stats "0" "0" "0" "").total = 26 ∧
    (get_container_stats "0" "0" "0" "").healthy = pyParseIntIfDigit "0" :=
  ⟨(C9_container_nonzero "0" "0" "0" "").2.2.1 (by decide),
   (C9_container_nonzero "0" "0" "0" "").2.2.2.1 (by decide),
   (C9_container_nonzero "0" "0" "0" "").2.2.2.2 (by decide) (by decide)⟩

/-- C4 counterexample: with all four outputs non-numeric the reported
record is running 24, total 26, healthy 0, unhealthy 0, so the claimed
record with healthy equal to the reported running count (24) is wrong. -/
theorem C4_counterexample :
    ¬ ((get_container_stats "x" "x" "x" "x").running = 24 ∧
       (get_container_stats "x" "x" "x" "x").total = 26 ∧
       (get_container_stats "x" "x" "x" "x").healthy =
         (get_container_stats "x" "x" "x" "x").running ∧
       (get_container_stats "x" "x" "x" "x").unhealthy = 0) := by
  decide

/-- C4 (amended): a non-numeric output defaults the reported running count
to 24, total to 26, healthy to the raw parsed running count (zero when the
running output is itself non-numeric), and unhealthy to 0; with all four
outputs non-numeric the record is running 24, total 26, healthy 0,
unhealthy 0. -/
theorem C4_container_defaults (running_out total_out healthy_out unhealthy_out : String) :
    (pyIsdigit running_out = false →
      (get_container_stats running_out total_out healthy_out unhealthy_out).running = 24) ∧
    (pyIsdigit total_out = false →
      (get_container_stats running_out total_out healthy_out unhealthy_out).total = 26) ∧
    (pyIsdigit healthy_out = false →
      (get_container_stats running_out total_out healthy_out unhealthy_out).healthy
        = pyParseIntIfDigit running_out) ∧
    (pyIsdigit unhealthy_out = false →
      (get_container_stats running_out total_out healthy_out unhealthy_out).unhealthy = 0) ∧
    (pyIsdigit running_out = false → pyIsdigit total_out = false →
      pyIsdigit healthy_out = false → pyIsdigit unhealthy_out = false →
      get_container_stats running_out total_out healthy_out unhealthy_out =
        { running := 24, total := 26, healthy := 0, unhealthy := 0 }) := by
  refine ⟨fun hr => ?_, fun ht => ?_, fun hh => ?_, fun hu => ?_,
    fun hr ht hh hu => ?_⟩ <;>
    simp [get_container_stats, pyParseIntIfDigit, *]

/-- C4 witness: the amended theorem applied to four non-numeric outputs. -/
theorem C4_witness :
    (get_container_stats "x" "x" "x" "x").running = 24 ∧
    get_container_stats "x" "x" "x" "x" =
      { running := 24, total := 26, healthy := 0, unhealthy := 0 } :=
  ⟨(C4_container_defaults "x" "x" "x" "x").1 (by decide),
   (C4_container_defaults "x" "x" "x" "x").2.2.2.2 (by decide) (by decide)
     (by decide) (by decide)⟩

/-- C6: a container-backed service whose runtime query reports it as not
running gets status stopped, and a computed uptime_hours of at most zero is
replaced by 720 in the returned record (in the stopped case uptime_hours
stays 0 and is surfaced as 720). -/
theorem C6_service_stopped (nm cn : String) (e : ServiceEnv) (now : Int) :
    (e.ps_out = "" →
      (get_service_status (.container nm cn) e now).status = "stopped" ∧
      (get_service_status (.container nm cn) e now).uptime_hours = 720) ∧
    (∀ s : Int, e.ps_out ≠ "" → e.started_at ≠ "" → e.started_time = some s →
      Int.tdiv (now - s) 3600 ≤ 0 →
      (get_service_status (.container nm cn) e now).uptime_hours = 720) := by
  constructor
  · intro h
    constructor <;> simp [get_service_status, serviceStatusUptime, h]
  · intro s hps hsa hst hle
    simp only [get_service_status, serviceStatusUptime, if_pos hps, hst, if_pos hsa]
    split
    · omega
    · rfl

/-- C6 witness: the theorem applied to a container reported as not
running. -/
theorem C6_witness :
    (get_service_status (.container "Jellyfin" "jellyfin")
        ⟨"", "", none, "", "", "", none⟩ 0).status = "stopped" ∧
    (get_service_status (.container "Jellyfin" "jellyfin")
        ⟨"", "", none, "", "", "", none⟩ 0).uptime_hours = 720 :=
  (C6_service_stopped "Jellyfin" "jellyfin" ⟨"", "", none, "", "", "", none⟩ 0).1 rfl

/-- C3 counterexample: the uptime command output parsing as -2592000
(a negative-number string) yields -100, which is outside the closed
interval 0 to 100, so the claimed range does not hold for every possible
string. -/
theorem C3_counterexample : ¬ (0 ≤ get_uptime_percentage (some (-2592000))) := by
  have h : get_uptime_percentage (some (-2592000)) = -100 := by
    simp only [get_uptime_percentage, thirty_days_seconds]
    rw [show ((-2592000 : ℚ) / (30 * 24 * 60 * 60) * 100) = ((-100 : ℤ) : ℚ) by norm_num,
      min_eq_left (by norm_num), round1_intCast]
    norm_num
  rw [h]
  norm_num

/-- C3 (amended): on parse failure get_uptime_percentage returns 99.5, and
whenever the output parses to a nonnegative number the result lies in the
closed interval 0 to 100 and is an integer number of tenths. -/
theorem C3_uptime_range (uptime_out : Option ℚ) :
    (uptime_out = none → get_uptime_percentage uptime_out = 995 / 10) ∧
    (∀ u, uptime_out = some u → 0 ≤ u →
      0 ≤ get_uptime_percentage uptime_out ∧
      get_uptime_percentage uptime_out ≤ 100 ∧
      ∃ k : ℤ, get_uptime_percentage uptime_out = (k : ℚ) / 10) := by
  constructor
  · rintro rfl
    rfl
  · rintro u rfl hu
    have htd : (0 : ℚ) < thirty_days_seconds := by norm_num [thirty_days_seconds]
    have hpct0 : 0 ≤ min (u / thirty_days_seconds * 100) 100 :=
      le_min (by positivity) (by norm_num)
    have hpct100 : min (u / thirty_days_seconds * 100) 100 ≤ 100 := min_le_right _ _
    refine ⟨round1_nonneg hpct0, round1_le_100 hpct100, ?_⟩
    exact ⟨round (min (u / thirty_days_seconds * 100) 100 * 10), rfl⟩

/-- C3 witness: the amended theorem applied to a parsed uptime of zero
seconds. -/
theorem C3_witness :
    0 ≤ get_uptime_percentage (some 0) ∧ get_uptime_percentage (some 0) ≤ 100 ∧
    ∃ k : ℤ, get_uptime_percentage (some 0) = (k : ℚ) / 10 :=
  (C3_uptime_range (some 0)).2 0 rfl le_rfl

/-- The storage accumulation loop leaves its accumulators unchanged when
every configured path exists, has at least four df tokens, and reports zero
total and zero used bytes. -/
theorem storageLoop_all_zero (qs : List PathQuery)
    (h : ∀ q ∈ qs, q.pathExists = true ∧ 4 ≤ q.dfParts.length ∧
      q.dfParts.getD 1 none = some 0 ∧ q.dfParts.getD 2 none = some 0) :
    ∀ t u : Int, storageLoop qs t u = .ok (t, u) := by
  induction qs with
  | nil => intro t u; rfl
  | cons q rest ih =>
    intro t u
    obtain ⟨h1, h2, h3, h4⟩ := h q (by simp)
    have hrest := ih (fun q hq => h q (by simp [hq])) t u
    simp only [List.getD, List.get?_eq_getElem?] at h3 h4
    simp [storageLoop, h1, h2, h3, h4, hrest]

/-- C5: when every configured path exists and its disk-usage query reports
zero total and zero used bytes, get_storage_stats returns exactly the
fallback record 6, 3.2, 2.8, 53. -/
theorem C5_storage_all_zero (qs : List PathQuery)
    (h : ∀ q ∈ qs, q.pathExists = true ∧ 4 ≤ q.dfParts.length ∧
      q.dfParts.getD 1 none = some 0 ∧ q.dfParts.getD 2 none = some 0) :
    get_storage_stats qs = storageFallback := by
  have hloop := storageLoop_all_zero qs h 0 0
  simp only [get_storage_stats, hloop]
  norm_num [tbOfBytes, pctUsed, storageFallback]

/-- C5 witness: the theorem applied to one existing path whose df row
reports zero total and zero used bytes. -/
theorem C5_witness :
    get_storage_stats [⟨true, [none, some 0, some 0, some 0]⟩] = storageFallback :=
  C5_storage_all_zero [⟨true, [none, some 0, some 0, some 0]⟩] (by decide)

theorem round1_one : round1 1 = 1 := by
  simpa using round1_intCast 1

theorem round1_zero : round1 0 = 0 := by
  simpa using round1_intCast 0

/-- C1 counterexample: one existing path whose df row reports one terabyte
total and zero used bytes makes the accumulation succeed with bytes
2 to the 40 and 0, yet the returned record is neither the complete fallback
record nor the fully computed record: total_tb and available_tb are real
while used_tb and percentage_used are the fallback constants. -/
theorem C1_counterexample :
    storageLoop [⟨true, [none, some (1024 ^ 4), some 0, some 0]⟩] 0 0 =
      .ok (1024 ^ 4, 0) ∧
    get_storage_stats [⟨true, [none, some (1024 ^ 4), some 0, some 0]⟩] ≠
      storageFallback ∧
    get_storage_stats [⟨true, [none, some (1024 ^ 4), some 0, some 0]⟩] ≠
      storageComputed (1024 ^ 4) 0 := by
  have hloop : storageLoop [⟨true, [none, some (1024 ^ 4), some 0, some 0]⟩] 0 0 =
      .ok (1024 ^ 4, 0) := rfl
  have htb : tbOfBytes (1024 ^ 4) = 1 := by
    unfold tbOfBytes
    norm_num
  have h0 : tbOfBytes 0 = 0 := by
    unfold tbOfBytes
    norm_num
  have hpct : pctUsed (1024 ^ 4) 0 = 0 := by
    simp only [pctUsed, htb, h0]
    norm_num
  have hres : get_storage_stats [⟨true, [none, some (1024 ^ 4), some 0, some 0]⟩] =
      { total_tb := 1, used_tb := 32 / 10, available_tb := 1, percentage_used := 53 } := by
    simp only [get_storage_stats, hloop, htb, h0, hpct]
    norm_num [round1_one]
  have hcomp : storageComputed (1024 ^ 4) 0 =
      { total_tb := 1, used_tb := 0, available_tb := 1, percentage_used := 0 } := by
    simp only [storageComputed, htb, h0, hpct]
    norm_num [round1_one, round1_zero]
  refine ⟨hloop, ?_, ?_⟩
  · rw [hres]
    simp only [storageFallback, ne_eq, StorageStats.mk.injEq, not_and]
    intro h
    norm_num at h
  · rw [hres, hcomp]
    simp only [ne_eq, StorageStats.mk.injEq, not_and]
    intro _ h
    norm_num at h

/-- C1 (amended): the all-or-nothing behaviour holds only for the
exception path; on the normal path each of the four fields independently
reports either the value computed from the accumulated bytes or its own
fallback constant, so records mixing real and fallback fields occur. -/
theorem C1_storage_per_field (qs : List PathQuery) :
    (storageLoop qs 0 0 = .error () → get_storage_stats qs = storageFallback) ∧
    (∀ total_bytes used_bytes, storageLoop qs 0 0 = .ok (total_bytes, used_bytes) →
      ((get_storage_stats qs).total_tb =
          (storageComputed total_bytes used_bytes).total_tb ∨
        (get_storage_stats qs).total_tb = 6) ∧
      ((get_storage_stats qs).used_tb =
          (storageComputed total_bytes used_bytes).used_tb ∨
        (get_storage_stats qs).used_tb = 32 / 10) ∧
      ((get_storage_stats qs).available_tb =
          (storageComputed total_bytes used_bytes).available_tb ∨
        (get_storage_stats qs).available_tb = 28 / 10) ∧
      ((get_storage_stats qs).percentage_used =
          (storageComputed total_bytes used_bytes).percentage_used ∨
        (get_storage_stats qs).percentage_used = 53)) := by
  constructor
  · intro h
    simp [get_storage_stats, h]
  · intro total_bytes used_bytes h
    simp only [get_storage_stats, h, storageComputed]
    refine ⟨?_, ?_, ?_, ?_⟩ <;> · split <;> simp

/-- C1 witness: the amended theorem applied to the mixed-record input of
the counterexample. -/
theorem C1_witness :
    ((get_storage_stats [⟨true, [none, some (1024 ^ 4), some 0, some 0]⟩]).total_tb =
        (storageComputed (1024 ^ 4) 0).total_tb ∨
      (get_storage_stats [⟨true, [none, some (1024 ^ 4), some 0, some 0]⟩]).total_tb = 6) ∧
    ((get_storage_stats [⟨true, [none, some (1024 ^ 4), some 0, some 0]⟩]).used_tb =
        (storageComputed (1024 ^ 4) 0).used_tb ∨
      (get_storage_stats [⟨true, [none, some (1024 ^ 4), some 0, some 0]⟩]).used_tb
        = 32 / 10) ∧
    ((get_storage_stats [⟨true, [none, some (1024 ^ 4), some 0, some 0]⟩]).available_tb =
        (storageComputed (1024 ^ 4) 0).available_tb ∨
      (get_storage_stats [⟨true, [none, some (1024 ^ 4), some 0, some 0]⟩]).available_tb
        = 28 / 10) ∧
    ((get_storage_stats [⟨true, [none, some (1024 ^ 4), some 0, some 0]⟩]).percentage_used =
        (storageComputed (1024 ^ 4) 0).percentage_used ∨
      (get_storage_stats [⟨true, [none, some (1024 ^ 4), some 0, some 0]⟩]).percentage_used
        = 53) :=
  (C1_storage_per_field [⟨true, [none, some (1024 ^ 4), some 0, some 0]⟩]).2
    (1024 ^ 4) 0 rfl

/-- A service environment observing one running container started at
instant 0, with no health check state reported. -/
def runningServiceEnv : ServiceEnv :=
  { ps_out := "abc123def456", started_at := "2024-01-01T00:00:00+00:00",
    started_time := some 0, health_out := "", is_active_out := "",
    show_out := "", active_time := none }

/-- An environment in which every command output is empty except that the
first configured service observes a running container. -/
def envOneRunning : Env :=
  { uptime_out := none, banned_output := "", bans_24h_output := "",
    active_output := "", running_out := "", total_out := "", healthy_out := "",
    unhealthy_out := "", storage := [], svc := [runningServiceEnv] }

/-- C8 counterexample: with identical external observations, collecting at
instants 3599 and 3600 yields snapshots that differ beyond the timestamp,
last_check and last_attack fields: the first service record reports
uptime_hours 720 in one snapshot and 1 in the other, because the
elapsed-hours computation reads the collection instant. -/
theorem C8_counterexample :
    ¬ (snapshotCore (collect_all_stats envOneRunning 3599) =
       snapshotCore (collect_all_stats envOneRunning 3600)) := by
  intro h
  have h1 : (collect_all_stats envOneRunning 3599).services.map serviceCore =
      (collect_all_stats envOneRunning 3600).services.map serviceCore :=
    congrArg (fun t => t.2.2.2.2.2.2.1) h
  exact absurd h1 (by decide)

theorem serviceCore2_time_indep (d : ServiceDesc) (e : ServiceEnv) (t1 t2 : Int) :
    serviceCore2 (get_service_status d e t1) = serviceCore2 (get_service_status d e t2) := by
  cases d with
  | container nm cn =>
    by_cases hps : e.ps_out = "" <;>
      simp [serviceCore2, get_service_status, serviceStatusUptime, hps]
  | systemd nm sn =>
    by_cases hac : e.is_active_out = "active" <;>
      simp [serviceCore2, get_service_status, serviceStatusUptime, hac]

theorem zipServicesCore2 (ds : List ServiceDesc) (es : List ServiceEnv) (t1 t2 : Int) :
    (List.zipWith (fun d e => get_service_status d e t1) ds es).map serviceCore2 =
    (List.zipWith (fun d e => get_service_status d e t2) ds es).map serviceCore2 := by
  induction ds generalizing es with
  | nil => rfl
  | cons d ds ih =>
    cases es with
    | nil => rfl
    | cons e es =>
      simp only [List.zipWith_cons_cons, List.map_cons]
      rw [serviceCore2_time_indep d e t1 t2, ih es]

/-- C8 (amended): two collections under identical external observations
agree on everything except the top-level timestamp, the security
last_attack instant, the per-service last_check instants, and the
per-service uptime_hours values, which read the collection instant; in
particular uptime percentage, security counts, container counts, storage,
network and every service name and status coincide. -/
theorem C8_time_stable (env : Env) (t1 t2 : Int) :
    snapshotCore2 (collect_all_stats env t1) = snapshotCore2 (collect_all_stats env t2) := by
  dsimp only [snapshotCore2, collect_all_stats]
  rw [zipServicesCore2 CONFIG_services env.svc t1 t2]
